import Mathlib

/-!
Shallow embedding of `src/12_5/app.js`, a browser glue layer for a photo
ID-generation form. The file has two DOMContentLoaded initializers: one
installs a document-wide paste handler that copies a clipboard image into
the file input, the other wires a preview button to a POST to the
`/preview` endpoint. DOM elements and browser effects (alerts, banners,
timers, the outgoing request, the preview image) are modelled as explicit
state; the asynchronous fetch is modelled by passing the settled outcome
of the round trip to the handler.
-/

/-- A file-like object: what `DataTransferItem.getAsFile` yields and what the
file input holds. -/
structure JsFile where
  name : String
  type : String
  bytes : List Nat
deriving DecidableEq

/-- One entry of `e.clipboardData.items`: a MIME type string plus the payload
that `getAsFile` exposes. -/
structure ClipboardItem where
  type : String
  fileName : String
  fileBytes : List Nat
deriving DecidableEq

/-- `item.getAsFile()`: for an image item the returned file carries the item's
own MIME type. -/
def ClipboardItem.getAsFile (it : ClipboardItem) : JsFile :=
  { name := it.fileName, type := it.type, bytes := it.fileBytes }

/-- Observable page state touched by the paste handler: the file input's file
list, the stack of `.paste-success-alert` banners currently in the document,
the pending banner-removal timer (milliseconds), whether
`e.preventDefault()` was called, and the alert dialogs fired. -/
structure PasteState where
  photoInputFiles : List JsFile
  banners : List String
  bannerTimeoutMs : Option Nat
  defaultPrevented : Bool
  alerts : List String
deriving DecidableEq

/-- Whether `pat` occurs at the start of `s` (on character lists). -/
def startsWithChars : List Char → List Char → Bool
  | _, [] => true
  | [], _ :: _ => false
  | c :: cs, p :: ps => c == p && startsWithChars cs ps

/-- Whether `pat` occurs anywhere in `s` (on character lists). -/
def hasSubChars (pat : List Char) : List Char → Bool
  | [] => startsWithChars [] pat
  | c :: rest => startsWithChars (c :: rest) pat || hasSubChars pat rest

/-- JavaScript `s.indexOf(pat) !== -1`. -/
def containsSubstr (s pat : String) : Bool :=
  hasSubChars pat.data s.data

/-- `const allowedTypes = ['image/jpeg', 'image/jpg', 'image/png']` (app.js line 21). -/
def allowedTypes : List String := ["image/jpeg", "image/jpg", "image/png"]

/-- Alert text of app.js line 23. -/
def unsupportedTypeMsg : String := "仅支持 JPG / PNG 格式的图片"

/-- Banner text of app.js line 54. -/
def pasteSuccessMsg : String := "✅ 已从剪贴板粘贴图片，请选择背景颜色后点击\"一键生成证件照\"按钮"

/-- `document.querySelector('.paste-success-alert')` followed by `.remove()`
(app.js lines 46-49): the first matching banner, if any, is removed. -/
def removeExistingAlert : List String → List String
  | [] => []
  | _ :: rest => rest

/-- `showPasteSuccess` (app.js lines 44-61): drop a pre-existing banner, append
the new one, and schedule its removal 3000 ms later. -/
def showPasteSuccess (st : PasteState) : PasteState :=
  { st with
    banners := removeExistingAlert st.banners ++ [pasteSuccessMsg],
    bannerTimeoutMs := some 3000 }

/-- The `setTimeout` callback of app.js lines 58-60 firing: the banner that was
appended last is removed. -/
def fireBannerTimeout (st : PasteState) : PasteState :=
  { st with banners := st.banners.dropLast, bannerTimeoutMs := none }

/-- The paste handler of app.js lines 7-41: scan clipboard items in order; at
the first item whose type contains "image", prevent the default action,
extract the file, reject it with an alert when its MIME type is not allowed,
otherwise install it as the single file of the input and show the banner.
Only that first image item is processed. -/
def pasteHandler : List ClipboardItem → PasteState → PasteState
  | [], st => st
  | it :: rest, st =>
    if containsSubstr it.type "image" then
      let st1 : PasteState := { st with defaultPrevented := true }
      let file := it.getAsFile
      if allowedTypes.contains file.type then
        showPasteSuccess { st1 with photoInputFiles := [file] }
      else
        { st1 with alerts := st1.alerts ++ [unsupportedTypeMsg] }
    else
      pasteHandler rest st

/-- Parsed JSON body of a `/preview` response, per the shape
`{success, error, preview_base64, preview_mime_type}`. Absent fields are
`none`. -/
structure PreviewData where
  error : Option String
  success : Bool
  preview_base64 : Option String
  preview_mime_type : Option String
deriving DecidableEq

/-- JavaScript truthiness of an optional string field: absent or empty is
falsy. -/
def strTruthy : Option String → Bool
  | none => false
  | some s => s != ""

/-- String interpolation of an optional field: an absent field renders as
"undefined" inside a template literal. -/
def jsStr : Option String → String
  | none => "undefined"
  | some s => s

/-- How the fetch round trip settles: a parsed JSON body, or a rejection
(network failure or JSON parse failure). -/
inductive FetchOutcome where
  | ok (data : PreviewData)
  | failed
deriving DecidableEq

/-- Observable page state touched by the preview click handler. -/
structure PreviewState where
  btnDisabled : Bool
  btnText : String
  imageSrc : Option String
  areaDisplay : String
  scrolled : Bool
  alerts : List String
  consoleErrors : Nat
  requests : List (JsFile × String)
deriving DecidableEq

/-- DOM lookups the click handler performs: the file input element (if present,
with its possibly-null `files` list), presence of the preview image and
preview container elements, and the checked `bg_color` radio's value
(`none` when `querySelector` returns null). -/
structure Dom where
  photoInput : Option (Option (List JsFile))
  previewImage : Bool
  previewArea : Bool
  bgChecked : Option String
deriving DecidableEq

/-- Result of one click: normal completion, or an uncaught exception thrown
synchronously, carrying the page state at the moment of the throw. -/
inductive ClickResult where
  | ok (st : PreviewState)
  | thrown (st : PreviewState)
deriving DecidableEq

/-- The page state a click left behind, whether it completed or threw. -/
def ClickResult.finalState : ClickResult → PreviewState
  | .ok st => st
  | .thrown st => st

/-- Alert text of app.js line 75. -/
def noFileMsg : String := "请先选择或粘贴一张图片"

/-- Busy label of app.js line 87. -/
def busyText : String := "处理中..."

/-- Label written back on settle (app.js lines 96 and 114). -/
def settledText : String := "预览证件照"

/-- Alert text of the catch branch, app.js line 115. -/
def transportFailMsg : String := "预览失败，请稍后重试"

/-- `!photoInput.files || photoInput.files.length === 0` (app.js line 74). -/
def fileMissing : Option (List JsFile) → Bool
  | none => true
  | some fs => fs.length == 0

/-- The `.catch` branch of app.js lines 112-117: re-enable the button, restore
its label, alert the generic failure message, log to the console. A thrown
error inside the `.then` callback also lands here, because the `.catch` is
chained after it. -/
def catchBranch (st : PreviewState) : PreviewState :=
  { st with
    btnDisabled := false, btnText := settledText,
    alerts := st.alerts ++ [transportFailMsg],
    consoleErrors := st.consoleErrors + 1 }

/-- The preview click handler of app.js lines 72-118, with the settled fetch
outcome passed in. Reading a property of a missing element throws: outside
the promise chain (`photoInput.files`, `.value` on a null radio query) the
exception is uncaught; inside the `.then` callback (`previewImage.src`,
`previewArea.style`) it is caught by the chained `.catch`. -/
def previewClickDom (dom : Dom) (outcome : FetchOutcome) (st : PreviewState) :
    ClickResult :=
  match dom.photoInput with
  | none => .thrown st
  | some files =>
    if fileMissing files then
      .ok { st with alerts := st.alerts ++ [noFileMsg] }
    else
      match dom.bgChecked with
      | none => .thrown st
      | some bg =>
        let photo := (files.getD []).headD { name := "", type := "", bytes := [] }
        let pending : PreviewState :=
          { st with
            btnDisabled := true, btnText := busyText,
            requests := st.requests ++ [(photo, bg)] }
        match outcome with
        | .failed => .ok (catchBranch pending)
        | .ok data =>
          let restored : PreviewState :=
            { pending with btnDisabled := false, btnText := settledText }
          if strTruthy data.error then
            .ok { restored with alerts := restored.alerts ++ [jsStr data.error] }
          else if data.success && strTruthy data.preview_base64 then
            if dom.previewImage then
              let withSrc : PreviewState :=
                { restored with
                  imageSrc := some ("data:" ++ jsStr data.preview_mime_type
                    ++ ";base64," ++ (data.preview_base64.getD "")) }
              if dom.previewArea then
                .ok { withSrc with areaDisplay := "block", scrolled := true }
              else
                .ok (catchBranch withSrc)
            else
              .ok (catchBranch restored)
          else
            .ok restored

/-- Which elements `getElementById` finds during the second DOMContentLoaded
initializer (app.js lines 64-69). -/
structure PageElems where
  previewBtn : Bool
  photoForm : Bool
  photoInput : Bool
  previewArea : Bool
  previewImage : Bool
deriving DecidableEq

/-- Whether the initializer completed, and if so whether it attached the click
handler. -/
inductive InitOutcome where
  | completed (clickHandlerAttached : Bool)
  | threw
deriving DecidableEq

/-- The second DOMContentLoaded initializer (app.js lines 64-120): five
`getElementById` lookups, which never throw, then `if (previewBtn)` guards
the `addEventListener` call. No other element is checked here. -/
def initPreviewSection (els : PageElems) : InitOutcome :=
  .completed els.previewBtn

/-! Concrete fixtures used by counterexamples and witnesses. -/

/-- A PNG file as it would arrive from a paste or a file picker. -/
def samplePng : JsFile := { name := "photo.png", type := "image/png", bytes := [81] }

/-- A GIF clipboard item: its type contains "image" but is not allowed. -/
def gifItem : ClipboardItem := { type := "image/gif", fileName := "a.gif", fileBytes := [1] }

/-- A PNG clipboard item. -/
def pngItem : ClipboardItem := { type := "image/png", fileName := "b.png", fileBytes := [2] }

/-- A plain-text clipboard item, skipped by the paste handler. -/
def textItem : ClipboardItem := { type := "text/plain", fileName := "t.txt", fileBytes := [3] }

/-- Paste-handler state before any event: empty input, no banner, no alert. -/
def pst0 : PasteState :=
  { photoInputFiles := [], banners := [], bannerTimeoutMs := none,
    defaultPrevented := false, alerts := [] }

/-- A page where every element the click handler needs is present and the blue
radio is checked. -/
def domAll : Dom :=
  { photoInput := some (some [samplePng]), previewImage := true,
    previewArea := true, bgChecked := some "blue" }

/-- Preview-section state before a click: idle button, hidden container. -/
def st0 : PreviewState :=
  { btnDisabled := false, btnText := settledText, imageSrc := none,
    areaDisplay := "none", scrolled := false, alerts := [],
    consoleErrors := 0, requests := [] }

/-- Like `st0` but with a button label that differs from the hard-coded
settle label, as a page author could set in the HTML. -/
def stAlt : PreviewState := { st0 with btnText := "Preview" }

/-! Helper lemmas shared by several claims. -/

/-- Leading clipboard items whose type does not contain "image" are skipped
without any effect. -/
theorem pasteHandler_skip_non_image (pre l : List ClipboardItem) (st : PasteState)
    (h : ∀ j ∈ pre, containsSubstr j.type "image" = false) :
    pasteHandler (pre ++ l) st = pasteHandler l st := by
  induction pre with
  | nil => rfl
  | cons j rest ih =>
    have hj := h j (List.mem_cons_self j rest)
    have hrest : ∀ k ∈ rest, containsSubstr k.type "image" = false :=
      fun k hk => h k (List.mem_cons_of_mem j hk)
    simp [pasteHandler, hj, ih hrest]

/-- A nonempty files list does not trip the missing-file guard. -/
theorem fileMissing_cons (f : JsFile) (fs : List JsFile) :
    fileMissing (some (f :: fs)) = false := by
  simp [fileMissing]

/-- C8: a paste event whose clipboard item list contains no item with "image"
in its type string (including an empty list) is a complete no-op: default not
prevented, file input unchanged, no alert, no banner. -/
theorem c8_paste_no_image_noop (items : List ClipboardItem) (st : PasteState)
    (h : ∀ it ∈ items, containsSubstr it.type "image" = false) :
    pasteHandler items st = st := by
  have hskip := pasteHandler_skip_non_image items [] st h
  simpa using hskip

/-- C8 witness: a paste of one text item leaves the initial state untouched. -/
theorem c8_paste_no_image_noop_witness :
    (∀ it ∈ [textItem], containsSubstr it.type "image" = false) ∧
    pasteHandler [textItem] pst0 = pst0 :=
  ⟨by decide, c8_paste_no_image_noop [textItem] pst0 (by decide)⟩

/-- C6: when the first clipboard item whose type contains "image" yields a
file whose MIME type is not in the allowed list, the handler alerts the fixed
message and stops, leaving the file input (and banners) unchanged; non-image
items before it are skipped without error. Default is prevented for the image
item before validation. -/
theorem c6_paste_bad_mime (pre : List ClipboardItem) (it : ClipboardItem)
    (rest : List ClipboardItem) (st : PasteState)
    (hpre : ∀ j ∈ pre, containsSubstr j.type "image" = false)
    (himg : containsSubstr it.type "image" = true)
    (hbad : allowedTypes.contains it.getAsFile.type = false) :
    pasteHandler (pre ++ it :: rest) st =
      { st with defaultPrevented := true,
                alerts := st.alerts ++ [unsupportedTypeMsg] } := by
  have hmem : it.getAsFile.type ∉ allowedTypes := by simpa using hbad
  rw [pasteHandler_skip_non_image pre (it :: rest) st hpre]
  simp [pasteHandler, himg, hmem]

/-- C6 witness: a text item followed by a GIF item alerts and leaves the file
input empty. -/
theorem c6_paste_bad_mime_witness :
    containsSubstr gifItem.type "image" = true ∧
    allowedTypes.contains gifItem.getAsFile.type = false ∧
    pasteHandler [textItem, gifItem, pngItem] pst0 =
      { pst0 with defaultPrevented := true, alerts := [unsupportedTypeMsg] } :=
  ⟨by decide, by decide,
   c6_paste_bad_mime [textItem] gifItem [pngItem] pst0 (by decide) (by decide) (by decide)⟩

/-- C2 counterexample: the clipboard list contains a PNG item, yet because an
earlier item (a GIF) also has "image" in its type, the handler alerts and
stops: the file input is not replaced by the PNG file and no banner is
shown. This refutes the claim as stated, which quantifies over every paste
whose list contains a PNG or JPEG item. -/
theorem c2_counterexample :
    ¬ ((pasteHandler [gifItem, pngItem] pst0).photoInputFiles =
         [pngItem.getAsFile] ∧
       (pasteHandler [gifItem, pngItem] pst0).banners ≠ []) := by
  decide

/-- C2 (amended): when the FIRST clipboard item whose type contains "image"
is a PNG or JPEG item, the handler replaces the file input's list with exactly
that file, removes any prior banner, appends the success banner, and schedules
its removal after 3000 ms; firing that timeout removes the banner again. -/
theorem c2_paste_image_accepted (pre : List ClipboardItem) (it : ClipboardItem)
    (rest : List ClipboardItem) (st : PasteState)
    (hpre : ∀ j ∈ pre, containsSubstr j.type "image" = false)
    (himg : containsSubstr it.type "image" = true)
    (hok : allowedTypes.contains it.getAsFile.type = true) :
    pasteHandler (pre ++ it :: rest) st =
      { st with defaultPrevented := true,
                photoInputFiles := [it.getAsFile],
                banners := removeExistingAlert st.banners ++ [pasteSuccessMsg],
                bannerTimeoutMs := some 3000 } ∧
    (fireBannerTimeout (pasteHandler (pre ++ it :: rest) st)).banners =
      removeExistingAlert st.banners := by
  have hmain : pasteHandler (pre ++ it :: rest) st =
      { st with defaultPrevented := true,
                photoInputFiles := [it.getAsFile],
                banners := removeExistingAlert st.banners ++ [pasteSuccessMsg],
                bannerTimeoutMs := some 3000 } := by
    have hmem : it.getAsFile.type ∈ allowedTypes := by simpa using hok
    rw [pasteHandler_skip_non_image pre (it :: rest) st hpre]
    simp [pasteHandler, himg, hmem, showPasteSuccess]
  refine ⟨hmain, ?_⟩
  rw [hmain]
  simp [fireBannerTimeout]

/-- C2 witness: a text item followed by a PNG item, pasted while an old banner
is up: the PNG lands in the file input, the old banner is replaced by the
success banner, and the 3000 ms timeout removes it. -/
theorem c2_paste_image_accepted_witness :
    containsSubstr pngItem.type "image" = true ∧
    allowedTypes.contains pngItem.getAsFile.type = true ∧
    (pasteHandler [textItem, pngItem] { pst0 with banners := ["old"] } =
      { pst0 with defaultPrevented := true,
                  photoInputFiles := [pngItem.getAsFile],
                  banners := [pasteSuccessMsg],
                  bannerTimeoutMs := some 3000 } ∧
     (fireBannerTimeout
        (pasteHandler [textItem, pngItem] { pst0 with banners := ["old"] })).banners = []) :=
  ⟨by decide, by decide,
   c2_paste_image_accepted [textItem] pngItem [] { pst0 with banners := ["old"] }
     (by decide) (by decide) (by decide)⟩

/-- C5: clicking preview while the file input holds no file (files list null or
empty) alerts and stops; no request to the preview endpoint is issued and
nothing else in the page state changes. -/
theorem c5_no_file_alerts (dom : Dom) (files : Option (List JsFile))
    (outcome : FetchOutcome) (st : PreviewState)
    (hpi : dom.photoInput = some files)
    (hmiss : fileMissing files = true) :
    previewClickDom dom outcome st =
      .ok { st with alerts := st.alerts ++ [noFileMsg] } := by
  simp [previewClickDom, hpi, hmiss]

/-- C5 witness: an empty files list yields the alert and leaves the request
list empty. -/
theorem c5_no_file_alerts_witness :
    fileMissing (some []) = true ∧
    previewClickDom { domAll with photoInput := some (some []) } .failed st0 =
      .ok { st0 with alerts := [noFileMsg] } :=
  ⟨rfl, c5_no_file_alerts { domAll with photoInput := some (some []) }
          (some []) .failed st0 rfl rfl⟩

/-- C7: when a file is present but no radio named bg_color is checked, reading
the value of the null query result throws before the button is disabled and
before any request is issued: the click ends as an uncaught throw with the
page state exactly as before the click. -/
theorem c7_no_radio_throws (dom : Dom) (f : JsFile) (fs : List JsFile)
    (outcome : FetchOutcome) (st : PreviewState)
    (hpi : dom.photoInput = some (some (f :: fs)))
    (hbg : dom.bgChecked = none) :
    previewClickDom dom outcome st = .thrown st := by
  simp [previewClickDom, hpi, fileMissing_cons, hbg]

/-- C7 witness: a page with a file selected and no checked radio throws with
state untouched. -/
theorem c7_no_radio_throws_witness :
    ({ domAll with bgChecked := none } : Dom).photoInput = some (some [samplePng]) ∧
    previewClickDom { domAll with bgChecked := none } .failed st0 = .thrown st0 :=
  ⟨rfl, c7_no_radio_throws { domAll with bgChecked := none } samplePng [] .failed st0 rfl rfl⟩

/-- C9: a parsed response with no truthy error and without both a truthy
success and a truthy preview_base64 leaves everything unchanged beyond
restoring the control and having issued the one request: no alert, preview
image and container untouched. -/
theorem c9_silent_response (dom : Dom) (f : JsFile) (fs : List JsFile)
    (b : String) (st : PreviewState) (data : PreviewData)
    (hpi : dom.photoInput = some (some (f :: fs)))
    (hbg : dom.bgChecked = some b)
    (herr : strTruthy data.error = false)
    (hns : (data.success && strTruthy data.preview_base64) = false) :
    previewClickDom dom (.ok data) st =
      .ok { st with
            btnDisabled := false, btnText := settledText,
            requests := st.requests ++ [(f, b)] } := by
  simp [previewClickDom, hpi, fileMissing_cons, hbg, herr, hns]

/-- C9 witness: the response with success false and no other field set only
restores the control. -/
theorem c9_silent_response_witness :
    strTruthy (none : Option String) = false ∧
    (false && strTruthy (none : Option String)) = false ∧
    previewClickDom domAll
      (.ok { error := none, success := false, preview_base64 := none,
             preview_mime_type := none }) st0 =
      .ok { st0 with
            btnDisabled := false, btnText := settledText,
            requests := [(samplePng, "blue")] } :=
  ⟨rfl, rfl,
   c9_silent_response domAll samplePng [] "blue" st0
     { error := none, success := false, preview_base64 := none,
       preview_mime_type := none } rfl rfl rfl rfl⟩

/-- C4 counterexample: the response has an error field present (the empty
string) together with success true and preview data; the handler fires no
alert and does update the preview image source — refuting the claim that any
response containing an error field alerts and leaves the preview unchanged. -/
theorem c4_counterexample :
    (previewClickDom domAll
      (.ok { error := some "", success := true, preview_base64 := some "QQ==",
             preview_mime_type := some "image/png" }) st0).finalState.imageSrc
        ≠ st0.imageSrc ∧
    (previewClickDom domAll
      (.ok { error := some "", success := true, preview_base64 := some "QQ==",
             preview_mime_type := some "image/png" }) st0).finalState.alerts
        = st0.alerts := by
  decide

/-- C4 (amended): a response whose error field is present and nonempty (truthy)
alerts with its content and does nothing else: beyond the settle-restore of
the control, the preview image source and the container visibility are left
unchanged. -/
theorem c4_error_alerts (dom : Dom) (f : JsFile) (fs : List JsFile)
    (b : String) (st : PreviewState) (data : PreviewData) (e : String)
    (hpi : dom.photoInput = some (some (f :: fs)))
    (hbg : dom.bgChecked = some b)
    (herr : data.error = some e)
    (hne : e ≠ "") :
    previewClickDom dom (.ok data) st =
      .ok { st with
            btnDisabled := false, btnText := settledText,
            requests := st.requests ++ [(f, b)],
            alerts := st.alerts ++ [e] } := by
  have ht : strTruthy (some e) = true := by simp [strTruthy, hne]
  simp [previewClickDom, hpi, fileMissing_cons, hbg, herr, ht, jsStr]

/-- C4 witness: a server-reported error message is alerted and the preview is
untouched. -/
theorem c4_error_alerts_witness :
    ("脸部检测失败" : String) ≠ "" ∧
    previewClickDom domAll
      (.ok { error := some "脸部检测失败", success := false,
             preview_base64 := none, preview_mime_type := none }) st0 =
      .ok { st0 with
            btnDisabled := false, btnText := settledText,
            requests := [(samplePng, "blue")],
            alerts := ["脸部检测失败"] } :=
  ⟨by decide,
   c4_error_alerts domAll samplePng [] "blue" st0
     { error := some "脸部检测失败", success := false, preview_base64 := none,
       preview_mime_type := none } "脸部检测失败" rfl rfl rfl (by decide)⟩

/-- C1 counterexample: a response with success true and preview_base64 present
but empty (a falsy value) does not set the image source and does not reveal
the container — refuting the claim as stated, which requires only that
preview_base64 be present. -/
theorem c1_counterexample :
    (previewClickDom domAll
      (.ok { error := none, success := true, preview_base64 := some "",
             preview_mime_type := some "image/png" }) st0).finalState.imageSrc
        = none ∧
    (previewClickDom domAll
      (.ok { error := none, success := true, preview_base64 := some "",
             preview_mime_type := some "image/png" }) st0).finalState.areaDisplay
        = "none" := by
  decide

/-- C1 (amended): for a response whose error field is absent or falsy, whose
success is true and whose preview_base64 is present and nonempty (truthy),
the handler sets the preview image source to the concatenation
data: ++ mime ++ ;base64, ++ data, sets the container display to block and
scrolls it into view. -/
theorem c1_preview_success (dom : Dom) (f : JsFile) (fs : List JsFile)
    (b : String) (st : PreviewState) (data : PreviewData) (e64 m : String)
    (hpi : dom.photoInput = some (some (f :: fs)))
    (himg : dom.previewImage = true)
    (harea : dom.previewArea = true)
    (hbg : dom.bgChecked = some b)
    (herr : strTruthy data.error = false)
    (hsucc : data.success = true)
    (hb64 : data.preview_base64 = some e64)
    (hne : e64 ≠ "")
    (hmime : data.preview_mime_type = some m) :
    previewClickDom dom (.ok data) st =
      .ok { st with
            btnDisabled := false, btnText := settledText,
            requests := st.requests ++ [(f, b)],
            imageSrc := some ("data:" ++ m ++ ";base64," ++ e64),
            areaDisplay := "block", scrolled := true } := by
  have hb : strTruthy (some e64) = true := by simp [strTruthy, hne]
  simp [previewClickDom, hpi, fileMissing_cons, hbg, herr, hsucc, hb64, hb,
        hmime, himg, harea, jsStr]

/-- C1 witness: the spec's scenario — bg_color blue, response success true with
preview_base64 QQ== and mime image/png — produces exactly the source
data:image/png;base64,QQ== and reveals the container. -/
theorem c1_preview_success_witness :
    ("QQ==" : String) ≠ "" ∧
    previewClickDom domAll
      (.ok { error := none, success := true, preview_base64 := some "QQ==",
             preview_mime_type := some "image/png" }) st0 =
      .ok { st0 with
            btnDisabled := false, btnText := settledText,
            requests := [(samplePng, "blue")],
            imageSrc := some "data:image/png;base64,QQ==",
            areaDisplay := "block", scrolled := true } :=
  ⟨by decide,
   c1_preview_success domAll samplePng [] "blue" st0
     { error := none, success := true, preview_base64 := some "QQ==",
       preview_mime_type := some "image/png" } "QQ==" "image/png"
     rfl rfl rfl rfl rfl rfl rfl (by decide) rfl⟩

/-- C3 counterexample: with a pre-click button label different from the
hard-coded settle label, the label after the request settles is not the
original text — refuting the claim that the label is restored to the text it
had before the click. -/
theorem c3_counterexample :
    (previewClickDom domAll
      (.ok { error := none, success := false, preview_base64 := none,
             preview_mime_type := none }) stAlt).finalState.btnText
      ≠ stAlt.btnText := by
  decide

/-- C3 (amended): whenever a request is issued (file present, radio checked),
the click completes normally for every settle outcome — parsed response with
or without error, or a network/parse failure — with the control re-enabled,
its label set to the fixed settle label, and exactly one request recorded. -/
theorem c3_settle_restores (dom : Dom) (f : JsFile) (fs : List JsFile)
    (b : String) (outcome : FetchOutcome) (st : PreviewState)
    (hpi : dom.photoInput = some (some (f :: fs)))
    (hbg : dom.bgChecked = some b) :
    ∃ st', previewClickDom dom outcome st = .ok st' ∧
      st'.btnDisabled = false ∧ st'.btnText = settledText ∧
      st'.requests = st.requests ++ [(f, b)] := by
  cases outcome with
  | failed =>
    simp [previewClickDom, hpi, fileMissing_cons, hbg, catchBranch]
  | ok data =>
    cases he : strTruthy data.error with
    | true =>
      simp [previewClickDom, hpi, fileMissing_cons, hbg, he]
    | false =>
      cases hsu : data.success with
      | false =>
        simp [previewClickDom, hpi, fileMissing_cons, hbg, he, hsu]
      | true =>
        cases hb : strTruthy data.preview_base64 with
        | false =>
          simp [previewClickDom, hpi, fileMissing_cons, hbg, he, hsu, hb]
        | true =>
          cases hi : dom.previewImage with
          | false =>
            simp [previewClickDom, hpi, fileMissing_cons, hbg, he, hsu, hb, hi,
                  catchBranch]
          | true =>
            cases ha : dom.previewArea with
            | false =>
              simp [previewClickDom, hpi, fileMissing_cons, hbg, he, hsu, hb, hi,
                    ha, catchBranch]
            | true =>
              simp [previewClickDom, hpi, fileMissing_cons, hbg, he, hsu, hb, hi, ha]

/-- C3 witness: a network failure on the fixture page re-enables the button
and sets the fixed settle label. -/
theorem c3_settle_restores_witness :
    domAll.bgChecked = some "blue" ∧
    ∃ st', previewClickDom domAll .failed st0 = .ok st' ∧
      st'.btnDisabled = false ∧ st'.btnText = settledText ∧
      st'.requests = [(samplePng, "blue")] :=
  ⟨rfl, c3_settle_restores domAll samplePng [] "blue" .failed st0 rfl rfl⟩

/-- C10: when the previewBtn element is absent, the second DOMContentLoaded
initializer completes without error and attaches no click handler — only
previewBtn is null-guarded. The other elements are dereferenced without such
a check: a click with the photoInput element missing throws uncaught at the
files read, and with the previewImage element missing a successful response
falls into the generic catch path through the unguarded source assignment. -/
theorem c10_only_btn_guarded (els : PageElems) (h : els.previewBtn = false) :
    initPreviewSection els = .completed false ∧
    (∀ (dom : Dom) (outcome : FetchOutcome) (st : PreviewState),
        dom.photoInput = none →
        previewClickDom dom outcome st = .thrown st) ∧
    (∀ (dom : Dom) (f : JsFile) (b : String) (st : PreviewState),
        dom.photoInput = some (some [f]) → dom.bgChecked = some b →
        dom.previewImage = false →
        previewClickDom dom
          (.ok { error := none, success := true, preview_base64 := some "QQ==",
                 preview_mime_type := some "image/png" }) st =
          .ok (catchBranch { st with
                             btnDisabled := false, btnText := settledText,
                             requests := st.requests ++ [(f, b)] })) := by
  refine ⟨by simp [initPreviewSection, h], ?_, ?_⟩
  · intro dom outcome st hp
    simp [previewClickDom, hp]
  · intro dom f b st hp hbg hpi
    simp [previewClickDom, hp, fileMissing_cons, hbg, hpi, strTruthy]

/-- C10 witness: a page missing only previewBtn completes initialization with
nothing attached; a click on a page missing photoInput throws with the state
untouched. -/
theorem c10_only_btn_guarded_witness :
    ({ previewBtn := false, photoForm := true, photoInput := true,
       previewArea := true, previewImage := true } : PageElems).previewBtn = false ∧
    initPreviewSection
      { previewBtn := false, photoForm := true, photoInput := true,
        previewArea := true, previewImage := true } = .completed false ∧
    previewClickDom { domAll with photoInput := none } .failed st0 = .thrown st0 :=
  ⟨rfl,
   (c10_only_btn_guarded
     { previewBtn := false, photoForm := true, photoInput := true,
       previewArea := true, previewImage := true } rfl).1,
   (c10_only_btn_guarded
     { previewBtn := false, photoForm := true, photoInput := true,
       previewArea := true, previewImage := true } rfl).2.1
     { domAll with photoInput := none } .failed st0 rfl⟩
